import Mathlib

/-!
Verification development for the YT-Music Lite HTTP façade (src/main.py).

The source is a small FastAPI application delegating to two upstream
providers.  We shallowly embed its core logic:

* `thumbnail_url`           — the deterministic thumbnail tier helper;
* `normalize` / `search_tracks` — the search merge / dedup / reshape pipeline;
* `TTLCache`                — the cachetools TTL cache used for audio URLs;
* `extract_audio_url`       — the pytubefix stream selection;
* `track_details`           — the cached, timeout-bounded track lookup.

Upstream I/O (ytmusicapi searches, pytubefix stream listing, metadata fetch)
is modelled by passing the upstream responses in as explicit arguments;
wall-clock time is an explicit `Nat` parameter.
-/

/-- An entry of a raw record's "artists" or "channel" JSON list: either a
JSON object with an optional "name" key, or a value that is not an object
(such entries are skipped by the `isinstance(a, dict)` check in the source's
list comprehension). -/
inductive ArtistEntry where
  | obj (name : Option String)
  | nonObj
deriving DecidableEq, Repr

/-- A raw provider record as consumed by `search_tracks` via defensive
`item.get(...)` accesses.  `none` models an absent key.  Fields the source
never reads are omitted. -/
structure RawRecord where
  videoId : Option String := none
  resultType : Option String := none
  title : Option String := none
  artists : Option (List ArtistEntry) := none
  channel : Option (List ArtistEntry) := none
deriving DecidableEq, Repr

/-- Python truthiness of an optional string: `None` and `""` are falsy. -/
def truthyStr : Option String → Option String
  | some s => if s = "" then none else some s
  | none => none

/-- Python truthiness of an optional list: `None` and `[]` are falsy. -/
def truthyList : Option (List ArtistEntry) → Option (List ArtistEntry)
  | some (a :: l) => some (a :: l)
  | _ => none

/-- The identifier the dedup loop keys on: `vid = item.get("videoId")`
followed by the `if not vid` truthiness test — absent or empty identifiers
yield `none`. -/
def getVid (item : RawRecord) : Option String := truthyStr item.videoId

/-- Quality tier of `thumbnail_url`: `("maxresdefault", "hqdefault",
"mqdefault", "default")` when `kind == "song"`, else `("hqdefault",
"mqdefault", "default")`. -/
def tier (kind : String) : List String :=
  if kind = "song" then ["maxresdefault", "hqdefault", "mqdefault", "default"]
  else ["hqdefault", "mqdefault", "default"]

/-- URL built for a given video id and quality tag, as in the source's
f-string `https://img.youtube.com/vi/.../<quality>.jpg`. -/
def thumbURL (video_id quality : String) : String :=
  "https://img.youtube.com/vi/" ++ video_id ++ "/" ++ quality ++ ".jpg"

/-- `thumbnail_url(video_id, kind)`: the source's `for quality in tier` loop
returns the URL on its first iteration unconditionally, so the result is the
URL for the tier's first entry; the trailing `return` with `"default"` is
the (dead) fallback for an empty tier. -/
def thumbnail_url (video_id kind : String) : String :=
  match tier kind with
  | quality :: _ => thumbURL video_id quality
  | [] => thumbURL video_id "default"

/-- Names extracted from an artists/channel list: the comprehension
`[a.get("name", "Unknown") for a in ... if isinstance(a, dict)]`. -/
def artistNames (l : List ArtistEntry) : List String :=
  l.filterMap fun a =>
    match a with
    | .obj name => some (name.getD "Unknown")
    | .nonObj => none

/-- The list the artist comprehension iterates over:
`item.get("artists") or item.get("channel") or []` (Python `or` falls
through on `None` and on an empty list). -/
def recordArtistList (item : RawRecord) : List ArtistEntry :=
  ((truthyList item.artists).orElse fun _ => truthyList item.channel).getD []

/-- One normalized search result, the dict appended to `results`. -/
structure SearchResult where
  title : String
  artist : String
  thumbnail : String
  videoId : String
  type : String
deriving DecidableEq, Repr

/-- The result dict built for a surviving record `item` with identifier
`vid`: kind is `item.get("resultType") or "video"`, title is
`item.get("title", "No title")`, artist is the joined name list or
`"Unknown"` when it is empty. -/
def mkResult (item : RawRecord) (vid : String) : SearchResult :=
  let kind := (truthyStr item.resultType).getD "video"
  let names := artistNames (recordArtistList item)
  { title := item.title.getD "No title"
    artist := if names.isEmpty then "Unknown" else String.intercalate ", " names
    thumbnail := thumbnail_url vid kind
    videoId := vid
    type := kind }

/-- The dedup loop of `search_tracks` with its `seen` set threaded through:
records whose identifier is falsy or already seen are skipped; otherwise the
identifier is added to `seen` and the record's result dict is appended. -/
def normalizeGo (seen : List String) : List RawRecord → List SearchResult
  | [] => []
  | item :: rest =>
    match getVid item with
    | none => normalizeGo seen rest
    | some vid =>
      if vid ∈ seen then normalizeGo seen rest
      else mkResult item vid :: normalizeGo (vid :: seen) rest

/-- Normalization of a raw record list, starting from an empty `seen` set. -/
def normalizeResults (raw : List RawRecord) : List SearchResult := normalizeGo [] raw

/-- Outcome of the search endpoint: `200 {results: ...}` or an
`HTTPException(code, detail)`. -/
inductive SearchOutcome where
  | ok (results : List SearchResult)
  | httpError (code : Nat) (detail : String)
deriving DecidableEq, Repr

/-- The upstream catalog search, as a map from the `filter` argument passed
to `ytm.search` to that query's outcome (`.error ()` models a raised
exception). -/
def Upstream : Type := Option String → Except Unit (List RawRecord)

/-- `search_tracks(q, limit, type=mode)`: for `mode = "all"` the source
gathers the songs-filtered query and the unfiltered query and re-raises if
either returned an exception, then concatenates `songs + videos`; otherwise
it runs the single query with `filter=mode`.  Any exception from this block
becomes `HTTPException(502, "Upstream unavailable")`; an empty raw list then
yields `HTTPException(404, "No results")`; otherwise the dedup loop runs. -/
def search_tracks (mode : String) (upstream : Upstream) : SearchOutcome :=
  let rawE : Except Unit (List RawRecord) :=
    if mode = "all" then
      match upstream (some "songs"), upstream none with
      | .error e, _ => .error e
      | _, .error e => .error e
      | .ok songs, .ok videos => .ok (songs ++ videos)
    else upstream (some mode)
  match rawE with
  | .error _ => .httpError 502 "Upstream unavailable"
  | .ok raw =>
    if raw.isEmpty then .httpError 404 "No results"
    else .ok (normalizeResults raw)

/-- One upstream catalog query as issued by `search_tracks`: the query
string, the `filter` argument, and the `limit` cap passed to the
provider. -/
structure UpstreamQuery where
  q : String
  filter : Option String
  limit : Nat
deriving DecidableEq, Repr

/-- The upstream queries `search_tracks` issues: for `mode = "all"`, the
songs-filtered and the unfiltered query, each with the same `limit`;
otherwise the single `filter=mode` query. -/
def issuedQueries (q : String) (limit : Nat) (mode : String) : List UpstreamQuery :=
  if mode = "all" then [⟨q, some "songs", limit⟩, ⟨q, none, limit⟩]
  else [⟨q, some mode, limit⟩]

/-- First-occurrence deduplication with an initial `seen` set: the
specification-level description of which identifiers survive the dedup
loop, in which order. -/
def firstDedupFrom (seen : List String) : List String → List String
  | [] => []
  | x :: xs =>
    if x ∈ seen then firstDedupFrom seen xs
    else x :: firstDedupFrom (x :: seen) xs

/-- One stored cache entry: key, value, and absolute expiry instant
(cachetools stores `expire = timer() + ttl` at write time). -/
structure CacheEntry where
  key : String
  url : String
  expiresAt : Nat
deriving DecidableEq, Repr

/-- Model of `cachetools.TTLCache(maxsize=1_000, ttl=...)`.  `entries` is
kept most-recently-written first.  Time is an explicit `Nat` passed to each
operation (cachetools reads a monotonic timer). -/
structure TTLCache where
  maxsize : Nat
  ttl : Nat
  entries : List CacheEntry
deriving DecidableEq, Repr

/-- `cache.get(key)`: `None` on a missing key and on an entry whose expiry
has passed (cachetools treats an entry as live while `timer() < expire`). -/
def TTLCache.get (c : TTLCache) (k : String) (now : Nat) : Option String :=
  match c.entries.find? (fun e => e.key == k) with
  | some e => if now < e.expiresAt then some e.url else none
  | none => none

/-- `cache[key] = url`: replaces any previous entry for the key, evicts
already-expired entries, stores the new entry with expiry `now + ttl`, and
enforces the `maxsize` bound by discarding oldest-written entries. -/
def TTLCache.set (c : TTLCache) (k url : String) (now : Nat) : TTLCache :=
  let kept := (c.entries.filter fun e => e.key != k).filter fun e => now < e.expiresAt
  { c with entries := (⟨k, url, now + c.ttl⟩ : CacheEntry) :: kept.take (c.maxsize - 1) }

/-- The global `audio_cache` at startup: `maxsize=1_000`, ttl from the
`AUDIO_TTL` environment variable with default `300`, no entries. -/
def audio_cache_init (ttl : Nat := 300) : TTLCache := ⟨1000, ttl, []⟩

/-- The cache key used by `track_details` is `hash(video_id)`.  Python's
`hash` is a fixed function of the string within a process, so equal
identifiers always map to the same key; we key by the identifier itself,
which is observationally equivalent for every property stated here (all of
which look up the same single identifier; hash collisions between distinct
identifiers are explicitly accepted by the design and not claimed about). -/
def cache_key (video_id : String) : String := video_id

/-- One stream as reported by the media-stream provider (pytubefix
`Stream`): whether it carries an audio / a video track, its container file
extension, its audio bitrate (`abr`, absent on some streams), and its
URL. -/
structure AudioStream where
  includesAudio : Bool
  includesVideo : Bool
  file_extension : String
  abr : Option Nat
  url : String
deriving DecidableEq, Repr

/-- pytubefix `filter(only_audio=True, file_extension="mp4")`: streams with
an audio track, no video track, and the mp4 container. -/
def onlyAudioMp4 (s : AudioStream) : Bool :=
  s.includesAudio && !s.includesVideo && s.file_extension == "mp4"

/-- Bitrate used for ordering; only ever applied to streams whose `abr` is
present (`order_by` drops the others first). -/
def abrVal (s : AudioStream) : Nat := s.abr.getD 0

/-- Stable insertion of a stream into an abr-ascending list: the new stream
goes after every stream of smaller-or-equal bitrate. -/
def insertByAbr (t : AudioStream) : List AudioStream → List AudioStream
  | [] => [t]
  | s :: ss => if abrVal t < abrVal s then t :: s :: ss else s :: insertByAbr t ss

/-- pytubefix `order_by("abr")`: drop streams with no `abr` attribute, then
sort ascending by bitrate (Python's stable sort, modelled by stable
insertion sort; the claims below do not depend on tie order). -/
def order_by_abr (l : List AudioStream) : List AudioStream :=
  (l.filter fun s => s.abr.isSome).foldl (fun acc t => insertByAbr t acc) []

/-- `_extract_audio_url`: filter to audio-only mp4 streams, order by abr,
take `.last()` (the highest bitrate; `None` on an empty query, upon which
the source raises `ValueError("No audio stream")`).  The `except` clause
only logs and re-raises, so any failure propagates to the caller. -/
def extract_audio_url (streams : List AudioStream) : Except String String :=
  match (order_by_abr (streams.filter onlyAudioMp4)).getLast? with
  | some s => .ok s.url
  | none => .error "No audio stream"

/-- The `timeout=8` bound passed to `asyncio.wait_for` around the stream
listing. -/
def STREAM_TIMEOUT : Nat := 8

/-- One (potential) stream-listing call: how long the upstream call would
take, and the stream list it would return.  `asyncio.wait_for` raises
`TimeoutError` when the duration exceeds the 8-second bound. -/
structure StreamListing where
  duration : Nat
  streams : List AudioStream
deriving DecidableEq, Repr

/-- Metadata from `ytm.get_song(video_id)["videoDetails"]`: title, author,
and the thumbnail URL list (the source reads the last entry). -/
structure Metadata where
  title : String
  author : String
  thumbnails : List String
deriving DecidableEq, Repr

/-- Outcome of the track endpoint: `200 TrackDetails` or an
`HTTPException(code, detail)`. -/
inductive TrackOutcome where
  | ok (title artist thumbnail audioUrl : String)
  | httpError (code : Nat) (detail : String)
deriving DecidableEq, Repr

/-- Result of one `track_details` request: the HTTP outcome, the audio
cache afterwards, and how many upstream stream-listing calls were
performed. -/
structure TrackStep where
  outcome : TrackOutcome
  cache : TTLCache
  upstreamCalls : Nat
deriving DecidableEq, Repr

/-- The tail of `track_details` once `audio_url` is known: fetch metadata
(failure becomes `HTTPException(503, "Metadata unavailable")`) and assemble
the payload.  An empty thumbnail list would make the `[-1]` indexing raise
outside any handler; the framework surfaces that as a 500. -/
def assembleTrack (audio_url : String) (meta : Except Unit Metadata)
    (c : TTLCache) (calls : Nat) : TrackStep :=
  match meta with
  | .error _ => ⟨.httpError 503 "Metadata unavailable", c, calls⟩
  | .ok m =>
    match m.thumbnails.getLast? with
    | some thumb => ⟨.ok m.title m.author thumb audio_url, c, calls⟩
    | none => ⟨.httpError 500 "Internal Server Error", c, calls⟩

/-- `track_details(video_id)`: look the hashed key up in `audio_cache`; on
a hit skip upstream work entirely; on a miss run the stream listing under
`asyncio.wait_for(..., timeout=8)` — exceeding the deadline raises
`TimeoutError`, mapped to `HTTPException(504, "Audio timeout")` by the
first handler, any other extraction failure is mapped to
`HTTPException(503, "Audio extraction failed")` by the second — and store a
successful result in the cache before the metadata fetch. -/
def track_details (video_id : String) (cache : TTLCache) (now : Nat)
    (listing : StreamListing) (meta : Except Unit Metadata) : TrackStep :=
  match cache.get (cache_key video_id) now with
  | some audio_url => assembleTrack audio_url meta cache 0
  | none =>
    if STREAM_TIMEOUT < listing.duration then
      ⟨.httpError 504 "Audio timeout", cache, 1⟩
    else
      match extract_audio_url listing.streams with
      | .error _ => ⟨.httpError 503 "Audio extraction failed", cache, 1⟩
      | .ok url => assembleTrack url meta (cache.set (cache_key video_id) url now) 1

/-- The songs-query record of the spec's end-to-end example 1. -/
def exSongRec : RawRecord :=
  { videoId := some "AAAAAAAAAAA", resultType := some "song", title := some "T1",
    artists := some [.obj (some "X")] }

/-- The videos-query record of the spec's end-to-end example 1. -/
def exVideoRec : RawRecord :=
  { videoId := some "AAAAAAAAAAA", resultType := some "video", title := some "T1v" }

/-- Upstream behaviour realising end-to-end example 1. -/
def exUpstream : Upstream := fun f =>
  match f with
  | some "songs" => .ok [exSongRec]
  | none => .ok [exVideoRec]
  | _ => .error ()

/-- A record with an identifier distinct from `exSongRec`'s and no
artist information. -/
def exRecB : RawRecord := { videoId := some "BBBBBBBBBBB", title := some "T3" }

/-- Upstream behaviour whose two queries return one record each with
distinct identifiers. -/
def exUpstreamDisjoint : Upstream := fun f =>
  match f with
  | some "songs" => .ok [exSongRec]
  | none => .ok [exRecB]
  | _ => .error ()

/-- A single audio stream used in concrete cache scenarios. -/
def exStream : AudioStream := ⟨true, false, "mp4", some 128, "URL1"⟩

/-! ### Shared lemmas -/

theorem assembleTrack_cache (audio_url : String) (meta : Except Unit Metadata)
    (c : TTLCache) (calls : Nat) : (assembleTrack audio_url meta c calls).cache = c := by
  cases meta with
  | error e => rfl
  | ok m => cases h : m.thumbnails.getLast? <;> simp [assembleTrack, h]

theorem assembleTrack_calls (audio_url : String) (meta : Except Unit Metadata)
    (c : TTLCache) (calls : Nat) : (assembleTrack audio_url meta c calls).upstreamCalls = calls := by
  cases meta with
  | error e => rfl
  | ok m => cases h : m.thumbnails.getLast? <;> simp [assembleTrack, h]

theorem mkResult_videoId (item : RawRecord) (vid : String) :
    (mkResult item vid).videoId = vid := rfl

theorem normalizeGo_cons_none (seen : List String) (item : RawRecord)
    (rest : List RawRecord) (h : getVid item = none) :
    normalizeGo seen (item :: rest) = normalizeGo seen rest := by
  simp [normalizeGo, h]

theorem normalizeGo_cons_seen (seen : List String) (item : RawRecord)
    (rest : List RawRecord) (vid : String) (h : getVid item = some vid) (hs : vid ∈ seen) :
    normalizeGo seen (item :: rest) = normalizeGo seen rest := by
  simp [normalizeGo, h, hs]

theorem normalizeGo_cons_new (seen : List String) (item : RawRecord)
    (rest : List RawRecord) (vid : String) (h : getVid item = some vid) (hs : vid ∉ seen) :
    normalizeGo seen (item :: rest) = mkResult item vid :: normalizeGo (vid :: seen) rest := by
  simp [normalizeGo, h, hs]

theorem mem_firstDedupFrom (l : List String) :
    ∀ (seen : List String) (x : String),
      x ∈ firstDedupFrom seen l ↔ (x ∈ l ∧ x ∉ seen) := by
  induction l with
  | nil => intro seen x; simp [firstDedupFrom]
  | cons y ys ih =>
    intro seen x
    by_cases hy : y ∈ seen
    · rw [firstDedupFrom, if_pos hy, ih]
      simp only [List.mem_cons]
      constructor
      · rintro ⟨hx, hns⟩; exact ⟨Or.inr hx, hns⟩
      · rintro ⟨rfl | hx, hns⟩
        · exact absurd hy hns
        · exact ⟨hx, hns⟩
    · rw [firstDedupFrom, if_neg hy]
      simp only [List.mem_cons, ih]
      by_cases hxy : x = y
      · subst hxy; simp [hy]
      · simp [hxy]

theorem nodup_firstDedupFrom (l : List String) :
    ∀ seen : List String, (firstDedupFrom seen l).Nodup := by
  induction l with
  | nil => intro seen; simp [firstDedupFrom]
  | cons y ys ih =>
    intro seen
    by_cases hy : y ∈ seen
    · simpa [firstDedupFrom, if_pos hy] using ih seen
    · rw [firstDedupFrom, if_neg hy]
      refine List.nodup_cons.mpr ⟨?_, ih (y :: seen)⟩
      intro hmem
      exact ((mem_firstDedupFrom ys (y :: seen) y).mp hmem).2 (List.mem_cons_self _ _)

theorem firstDedupFrom_of_nodup (l : List String) :
    ∀ seen : List String, l.Nodup → (∀ x ∈ l, x ∉ seen) → firstDedupFrom seen l = l := by
  induction l with
  | nil => intro seen _ _; rfl
  | cons y ys ih =>
    intro seen hnd hout
    have hy : y ∉ seen := hout y (List.mem_cons_self _ _)
    rw [firstDedupFrom, if_neg hy, ih (y :: seen) (List.nodup_cons.mp hnd).2]
    intro x hx hc
    rcases List.nodup_cons.mp hnd with ⟨hyns, _⟩
    rcases List.mem_cons.mp hc with rfl | hc'
    · exact hyns hx
    · exact hout x (List.mem_cons_of_mem _ hx) hc'

theorem normalizeGo_map (raw : List RawRecord) :
    ∀ seen : List String,
      (normalizeGo seen raw).map SearchResult.videoId
        = firstDedupFrom seen (raw.filterMap getVid) := by
  induction raw with
  | nil => intro seen; rfl
  | cons item rest ih =>
    intro seen
    cases h : getVid item with
    | none => rw [normalizeGo_cons_none seen item rest h, List.filterMap_cons_none h, ih]
    | some vid =>
      rw [List.filterMap_cons_some h]
      by_cases hseen : vid ∈ seen
      · rw [normalizeGo_cons_seen seen item rest vid h hseen, ih, firstDedupFrom, if_pos hseen]
      · rw [normalizeGo_cons_new seen item rest vid h hseen, firstDedupFrom, if_neg hseen,
          List.map_cons, mkResult_videoId, ih]

theorem normalizeGo_first (raw : List RawRecord) :
    ∀ (seen : List String) (res : SearchResult), res ∈ normalizeGo seen raw →
      res.videoId ∉ seen
      ∧ ∃ item, raw.find? (fun r => getVid r == some res.videoId) = some item
          ∧ getVid item = some res.videoId ∧ res = mkResult item res.videoId := by
  induction raw with
  | nil => intro seen res hres; simp [normalizeGo] at hres
  | cons item rest ih =>
    intro seen res hres
    cases h : getVid item with
    | none =>
      rw [normalizeGo_cons_none seen item rest h] at hres
      rcases ih seen res hres with ⟨hout, it, hfind, hit, heq⟩
      refine ⟨hout, it, ?_, hit, heq⟩
      rw [List.find?_cons_of_neg _ (by simp [h]), hfind]
    | some vid =>
      by_cases hseen : vid ∈ seen
      · rw [normalizeGo_cons_seen seen item rest vid h hseen] at hres
        rcases ih seen res hres with ⟨hout, it, hfind, hit, heq⟩
        have hne : res.videoId ≠ vid := fun hc => hout (hc ▸ hseen)
        refine ⟨hout, it, ?_, hit, heq⟩
        rw [List.find?_cons_of_neg _ (by simp [h]; exact fun hc => hne hc.symm), hfind]
      · rw [normalizeGo_cons_new seen item rest vid h hseen] at hres
        rcases List.mem_cons.mp hres with rfl | htail
        · refine ⟨by simpa [mkResult_videoId] using hseen, item,
            List.find?_cons_of_pos _ (by simp [h, mkResult_videoId]),
            by simp [h, mkResult_videoId], by simp [mkResult_videoId]⟩
        · rcases ih (vid :: seen) res htail with ⟨hout, it, hfind, hit, heq⟩
          have hne : res.videoId ≠ vid := fun hc => hout (by simp [hc])
          refine ⟨fun hc => hout (List.mem_cons_of_mem _ hc), it, ?_, hit, heq⟩
          rw [List.find?_cons_of_neg _ (by simp [h]; exact fun hc => hne hc.symm), hfind]

theorem mem_of_getLast?_eq (l : List AudioStream) (m : AudioStream)
    (h : l.getLast? = some m) : m ∈ l := by
  cases l with
  | nil => simp at h
  | cons a l' =>
    rw [List.getLast?_eq_getLast (a :: l') (by simp)] at h
    have := Option.some.inj h
    rw [← this]
    exact List.getLast_mem _

theorem mem_insertByAbr (t x : AudioStream) (l : List AudioStream) :
    x ∈ insertByAbr t l ↔ x = t ∨ x ∈ l := by
  induction l with
  | nil => simp [insertByAbr]
  | cons s ss ih =>
    rw [insertByAbr]
    split
    · simp [List.mem_cons]
    · simp only [List.mem_cons, ih]
      tauto

theorem pairwise_insertByAbr (t : AudioStream) (l : List AudioStream)
    (h : l.Pairwise (fun a b => abrVal a ≤ abrVal b)) :
    (insertByAbr t l).Pairwise (fun a b => abrVal a ≤ abrVal b) := by
  induction l with
  | nil => simp [insertByAbr]
  | cons s ss ih =>
    rcases List.pairwise_cons.mp h with ⟨hs, hss⟩
    rw [insertByAbr]
    split
    case isTrue hlt =>
      refine List.pairwise_cons.mpr ⟨?_, h⟩
      intro x hx
      rcases List.mem_cons.mp hx with rfl | hx'
      · exact Nat.le_of_lt hlt
      · exact Nat.le_trans (Nat.le_of_lt hlt) (hs x hx')
    case isFalse hge =>
      refine List.pairwise_cons.mpr ⟨?_, ih hss⟩
      intro x hx
      rcases (mem_insertByAbr t x ss).mp hx with rfl | hx'
      · exact Nat.le_of_not_lt hge
      · exact hs x hx'

theorem foldl_insert_core (l : List AudioStream) :
    ∀ acc : List AudioStream, acc.Pairwise (fun a b => abrVal a ≤ abrVal b) →
      (l.foldl (fun acc t => insertByAbr t acc) acc).Pairwise (fun a b => abrVal a ≤ abrVal b)
      ∧ ∀ x, x ∈ l.foldl (fun acc t => insertByAbr t acc) acc ↔ (x ∈ l ∨ x ∈ acc) := by
  induction l with
  | nil => intro acc h; exact ⟨h, by simp⟩
  | cons t ts ih =>
    intro acc h
    have h' := pairwise_insertByAbr t acc h
    rcases ih (insertByAbr t acc) h' with ⟨hp, hm⟩
    refine ⟨hp, fun x => ?_⟩
    rw [List.foldl_cons, hm x, mem_insertByAbr]
    simp only [List.mem_cons]
    tauto

theorem order_by_abr_pairwise (l : List AudioStream) :
    (order_by_abr l).Pairwise (fun a b => abrVal a ≤ abrVal b) :=
  (foldl_insert_core _ [] List.Pairwise.nil).1

theorem mem_order_by_abr (l : List AudioStream) (x : AudioStream) :
    x ∈ order_by_abr l ↔ (x ∈ l ∧ x.abr.isSome) := by
  unfold order_by_abr
  rw [(foldl_insert_core _ [] List.Pairwise.nil).2 x]
  simp [List.mem_filter]

theorem getLast?_abr_max (l : List AudioStream) :
    ∀ m : AudioStream, l.Pairwise (fun a b => abrVal a ≤ abrVal b) →
      l.getLast? = some m → ∀ x ∈ l, abrVal x ≤ abrVal m := by
  induction l with
  | nil => intro m _ hm; simp at hm
  | cons a l' ih =>
    intro m h hm x hx
    cases l' with
    | nil =>
      simp only [List.getLast?_singleton, Option.some.injEq] at hm
      rcases List.mem_singleton.mp hx with rfl
      rw [hm]
    | cons b l'' =>
      rw [List.getLast?_cons_cons] at hm
      rcases List.pairwise_cons.mp h with ⟨ha, h'⟩
      rcases List.mem_cons.mp hx with rfl | hx'
      · exact ha m (mem_of_getLast?_eq _ m hm)
      · exact ih m h' hm x hx'

theorem TTLCache.ttl_set (c : TTLCache) (k url : String) (now : Nat) :
    (c.set k url now).ttl = c.ttl := rfl

theorem TTLCache.get_set_self (c : TTLCache) (k url : String) (now t : Nat) :
    (c.set k url now).get k t = if t < now + c.ttl then some url else none := by
  unfold TTLCache.get TTLCache.set
  rw [List.find?_cons_of_pos _ (by simp)]

theorem TTLCache.get_hit_not_expired (c : TTLCache) (k : String) (now : Nat) (u : String)
    (h : c.get k now = some u) :
    ∃ e ∈ c.entries, e.key = k ∧ e.url = u ∧ now < e.expiresAt := by
  unfold TTLCache.get at h
  cases hf : c.entries.find? (fun e => e.key == k) with
  | none => rw [hf] at h; exact absurd h (by simp)
  | some e =>
    rw [hf] at h
    have h' : (if now < e.expiresAt then some e.url else none) = some u := h
    by_cases ht : now < e.expiresAt
    · rw [if_pos ht] at h'
      exact ⟨e, List.mem_of_find?_eq_some hf,
        by simpa using List.find?_some hf, Option.some.inj h', ht⟩
    · rw [if_neg ht] at h'
      exact absurd h' (by simp)

theorem thumbURL_ne_empty (v q : String) : thumbURL v q ≠ "" := by
  intro h
  have h2 := congrArg String.length h
  rw [thumbURL] at h2
  simp only [String.length_append] at h2
  have hp : ("https://img.youtube.com/vi/" : String).length = 27 := by decide
  have hs : ("/" : String).length = 1 := by decide
  have hj : (".jpg" : String).length = 4 := by decide
  have he : ("" : String).length = 0 := by decide
  omega

theorem search_tracks_all_ok (upstream : Upstream) (songs videos : List RawRecord)
    (hs : upstream (some "songs") = .ok songs) (hv : upstream none = .ok videos)
    (hne : songs ++ videos ≠ []) :
    search_tracks "all" upstream = .ok (normalizeResults (songs ++ videos)) := by
  unfold search_tracks
  rw [if_pos rfl, hs, hv]
  simp [List.isEmpty_iff, hne, normalizeResults]

theorem search_tracks_single_ok (mode : String) (upstream : Upstream) (raws : List RawRecord)
    (hm : mode ≠ "all") (hs : upstream (some mode) = .ok raws) (hne : raws ≠ []) :
    search_tracks mode upstream = .ok (normalizeResults raws) := by
  unfold search_tracks
  rw [if_neg hm, hs]
  simp [List.isEmpty_iff, hne, normalizeResults]

theorem filterMap_getVid_length (raw : List RawRecord)
    (h : ∀ r ∈ raw, (getVid r).isSome = true) :
    (raw.filterMap getVid).length = raw.length := by
  induction raw with
  | nil => rfl
  | cons item rest ih =>
    have hi := h item (List.mem_cons_self _ _)
    cases hv : getVid item with
    | none => rw [hv] at hi; cases hi
    | some vid =>
      rw [List.filterMap_cons_some hv, List.length_cons, List.length_cons,
        ih fun r hr => h r (List.mem_cons_of_mem _ hr)]

/-! ### Claims -/

/-- C8: the thumbnail resolver is a deterministic function of
(trackId, kind) returning the URL for the FIRST entry of the kind's tier
(maxresdefault for kind "song", hqdefault for any other kind); the URL is
non-empty and its quality tag is a member of the kind's tier list. -/
theorem claim_C8_thumbnail_first_tier (video_id kind : String) :
    (∃ q, (tier kind).head? = some q
        ∧ thumbnail_url video_id kind = thumbURL video_id q ∧ q ∈ tier kind)
    ∧ thumbnail_url video_id kind
        = thumbURL video_id (if kind = "song" then "maxresdefault" else "hqdefault")
    ∧ thumbnail_url video_id kind ≠ "" := by
  by_cases h : kind = "song"
  · exact ⟨⟨"maxresdefault", by simp [tier, h], by simp [tier, thumbnail_url, h],
      by simp [tier, h]⟩, by simp [tier, thumbnail_url, h],
      by simpa [tier, thumbnail_url, h] using thumbURL_ne_empty video_id "maxresdefault"⟩
  · exact ⟨⟨"hqdefault", by simp [tier, h], by simp [tier, thumbnail_url, h],
      by simp [tier, h]⟩, by simp [tier, thumbnail_url, h],
      by simpa [tier, thumbnail_url, h] using thumbURL_ne_empty video_id "hqdefault"⟩

/-- C3: a search whose upstream result list is empty yields the 404
"No results" failure; that outcome is not an empty-success response and is
distinct from the 502 upstream-unavailable failure. -/
theorem claim_C3_empty_is_404 (mode : String) (upstream : Upstream) :
    (mode = "all" → upstream (some "songs") = .ok [] → upstream none = .ok [] →
        search_tracks mode upstream = .httpError 404 "No results")
    ∧ (mode ≠ "all" → upstream (some mode) = .ok [] →
        search_tracks mode upstream = .httpError 404 "No results")
    ∧ (∀ rs, SearchOutcome.httpError 404 "No results" ≠ .ok rs)
    ∧ SearchOutcome.httpError 404 "No results" ≠ .httpError 502 "Upstream unavailable" := by
  refine ⟨?_, ?_, ?_, by decide⟩
  · intro hm hs hv
    subst hm
    unfold search_tracks
    rw [if_pos rfl, hs, hv]
    simp
  · intro hm hs
    unfold search_tracks
    rw [if_neg hm, hs]
    simp
  · intro rs hc
    cases hc

/-- C3 witness: a concrete empty-result search on both branches. -/
theorem claim_C3_empty_is_404_witness :
    search_tracks "all" (fun _ => .ok []) = .httpError 404 "No results"
    ∧ search_tracks "song" (fun _ => .ok []) = .httpError 404 "No results" :=
  ⟨(claim_C3_empty_is_404 "all" (fun _ => .ok [])).1 rfl rfl rfl,
   (claim_C3_empty_is_404 "song" (fun _ => .ok [])).2.1 (by decide) rfl⟩

/-- C5: in mode "all" two upstream queries are issued — one filtered to
songs, one unfiltered — each capped at limit; if either query fails the
whole search fails with the 502 upstream-unavailable classification, which
carries no partial results. -/
theorem claim_C5_all_mode_fail_fast (q : String) (limit : Nat) (upstream : Upstream) :
    issuedQueries q limit "all" = [⟨q, some "songs", limit⟩, ⟨q, none, limit⟩]
    ∧ (upstream (some "songs") = .error () ∨ upstream none = .error () →
        search_tracks "all" upstream = .httpError 502 "Upstream unavailable")
    ∧ (∀ rs, SearchOutcome.httpError 502 "Upstream unavailable" ≠ .ok rs) := by
  refine ⟨by simp [issuedQueries], ?_, ?_⟩
  case refine_2 => intro rs hc; cases hc
  intro h
  unfold search_tracks
  rw [if_pos rfl]
  rcases h with hs | hv
  · rw [hs]
    cases hv' : upstream none <;> simp
  · rw [hv]
    cases hs' : upstream (some "songs") <;> simp

/-- C5 witness: a failing songs query (and a failing videos query) each
fail a concrete mode-"all" search with 502. -/
theorem claim_C5_all_mode_fail_fast_witness :
    search_tracks "all" (fun f => if f = some "songs" then .error () else .ok [exSongRec])
      = .httpError 502 "Upstream unavailable"
    ∧ search_tracks "all" (fun f => if f = none then .error () else .ok [exSongRec])
      = .httpError 502 "Upstream unavailable" :=
  ⟨(claim_C5_all_mode_fail_fast "test" 10
      (fun f => if f = some "songs" then .error () else .ok [exSongRec])).2.1 (Or.inl rfl),
   (claim_C5_all_mode_fail_fast "test" 10
      (fun f => if f = none then .error () else .ok [exSongRec])).2.1 (Or.inr rfl)⟩

/-- C4: on a cache miss, a stream listing exceeding the 8-second deadline
yields 504 Audio timeout; any other stream-resolution failure yields 503
Audio extraction failed; the two classifications are mutually exclusive and
a timeout is never reported as extraction failure. -/
theorem claim_C4_timeout_vs_extraction (video_id : String) (cache : TTLCache) (now : Nat)
    (listing : StreamListing) (meta : Except Unit Metadata)
    (hmiss : cache.get (cache_key video_id) now = none) :
    (STREAM_TIMEOUT < listing.duration →
        (track_details video_id cache now listing meta).outcome
          = .httpError 504 "Audio timeout")
    ∧ (¬ STREAM_TIMEOUT < listing.duration →
        ∀ msg, extract_audio_url listing.streams = .error msg →
        (track_details video_id cache now listing meta).outcome
          = .httpError 503 "Audio extraction failed")
    ∧ TrackOutcome.httpError 504 "Audio timeout" ≠ .httpError 503 "Audio extraction failed"
    ∧ (STREAM_TIMEOUT < listing.duration →
        (track_details video_id cache now listing meta).outcome
          ≠ .httpError 503 "Audio extraction failed") := by
  refine ⟨?_, ?_, by decide, ?_⟩
  · intro hd
    simp [track_details, hmiss, hd]
  · intro hd msg hex
    simp [track_details, hmiss, hd, hex]
  · intro hd
    simp [track_details, hmiss, hd]

/-- C4 witness: a 9-second listing is a 504 timeout, a fast listing with no
usable stream is a 503 extraction failure, on a concrete empty cache. -/
theorem claim_C4_timeout_vs_extraction_witness :
    (track_details "AAAAAAAAAAA" audio_cache_init 0 ⟨9, []⟩ (.error ())).outcome
      = .httpError 504 "Audio timeout"
    ∧ (track_details "AAAAAAAAAAA" audio_cache_init 0 ⟨1, []⟩ (.error ())).outcome
      = .httpError 503 "Audio extraction failed" :=
  ⟨(claim_C4_timeout_vs_extraction "AAAAAAAAAAA" audio_cache_init 0 ⟨9, []⟩ (.error ())
      (by rfl)).1 (by decide),
   (claim_C4_timeout_vs_extraction "AAAAAAAAAAA" audio_cache_init 0 ⟨1, []⟩ (.error ())
      (by rfl)).2.1 (by decide) "No audio stream" (by rfl)⟩

/-- C9: a failed stream resolution (timeout or extraction failure) leaves
the audio cache unchanged; any cache change comes from a successful
resolution on a miss and is exactly the insertion of the resolved URL; at
most one upstream stream-listing call is performed per request (no
retry). -/
theorem claim_C9_no_mutation_on_failure (video_id : String) (cache : TTLCache) (now : Nat)
    (listing : StreamListing) (meta : Except Unit Metadata) :
    (track_details video_id cache now listing meta).upstreamCalls ≤ 1
    ∧ (cache.get (cache_key video_id) now = none →
        (STREAM_TIMEOUT < listing.duration
          ∨ ∃ msg, extract_audio_url listing.streams = .error msg) →
        (track_details video_id cache now listing meta).cache = cache)
    ∧ ((track_details video_id cache now listing meta).cache ≠ cache →
        cache.get (cache_key video_id) now = none
        ∧ ¬ STREAM_TIMEOUT < listing.duration
        ∧ ∃ url, extract_audio_url listing.streams = .ok url
            ∧ (track_details video_id cache now listing meta).cache
                = cache.set (cache_key video_id) url now) := by
  cases hg : cache.get (cache_key video_id) now with
  | some u =>
    refine ⟨by simp [track_details, hg, assembleTrack_calls], ?_, ?_⟩
    · intro hmiss
      cases hmiss
    · intro hne
      exact absurd (by simp [track_details, hg, assembleTrack_cache]) hne
  | none =>
    by_cases hd : STREAM_TIMEOUT < listing.duration
    · refine ⟨by simp [track_details, hg, hd], fun _ _ => by simp [track_details, hg, hd], ?_⟩
      intro hne
      exact absurd (by simp [track_details, hg, hd]) hne
    · cases hex : extract_audio_url listing.streams with
      | error msg =>
        refine ⟨by simp [track_details, hg, hd, hex],
          fun _ _ => by simp [track_details, hg, hd, hex], ?_⟩
        intro hne
        exact absurd (by simp [track_details, hg, hd, hex]) hne
      | ok url =>
        refine ⟨by simp [track_details, hg, hd, hex, assembleTrack_calls], ?_, ?_⟩
        · intro _ hfail
          rcases hfail with h8 | ⟨msg, hmsg⟩
          · exact absurd h8 hd
          · cases hmsg
        · intro _
          exact ⟨rfl, hd, url, rfl,
            by simp [track_details, hg, hd, hex, assembleTrack_cache]⟩

/-- C9 witness: a concrete timeout leaves the empty cache unchanged. -/
theorem claim_C9_no_mutation_on_failure_witness :
    (track_details "AAAAAAAAAAA" audio_cache_init 0 ⟨9, [exStream]⟩ (.error ())).cache
      = audio_cache_init :=
  (claim_C9_no_mutation_on_failure "AAAAAAAAAAA" audio_cache_init 0 ⟨9, [exStream]⟩
      (.error ())).2.1 (by rfl) (Or.inl (by decide))

/-- C2: after a first cache-miss resolution stores a URL, a second call for
the same identifier within the TTL window performs no upstream call and
returns the stored URL; a call at or after expiry performs upstream work
again; and a cache hit never returns an expired entry. -/
theorem claim_C2_cache_ttl (video_id url : String) (c0 : TTLCache) (t1 t2 : Nat)
    (listing1 listing2 : StreamListing) (meta1 meta2 : Except Unit Metadata)
    (hmiss : c0.get (cache_key video_id) t1 = none)
    (hdur : ¬ STREAM_TIMEOUT < listing1.duration)
    (hok : extract_audio_url listing1.streams = .ok url) :
    (track_details video_id c0 t1 listing1 meta1).cache
      = c0.set (cache_key video_id) url t1
    ∧ (t2 < t1 + c0.ttl →
        (track_details video_id (track_details video_id c0 t1 listing1 meta1).cache
            t2 listing2 meta2).upstreamCalls = 0
        ∧ ((track_details video_id c0 t1 listing1 meta1).cache).get
            (cache_key video_id) t2 = some url
        ∧ ∀ m thumb, meta2 = .ok m → m.thumbnails.getLast? = some thumb →
            (track_details video_id (track_details video_id c0 t1 listing1 meta1).cache
                t2 listing2 meta2).outcome = .ok m.title m.author thumb url)
    ∧ (t1 + c0.ttl ≤ t2 →
        (track_details video_id (track_details video_id c0 t1 listing1 meta1).cache
            t2 listing2 meta2).upstreamCalls = 1)
    ∧ (∀ (c : TTLCache) (k u : String) (n : Nat), c.get k n = some u →
        ∃ e ∈ c.entries, e.key = k ∧ e.url = u ∧ n < e.expiresAt) := by
  have hstep1 : (track_details video_id c0 t1 listing1 meta1).cache
      = c0.set (cache_key video_id) url t1 := by
    simp [track_details, hmiss, hdur, hok, assembleTrack_cache]
  refine ⟨hstep1, ?_, ?_, fun c k u n h => TTLCache.get_hit_not_expired c k n u h⟩
  · intro hwin
    have hget : (TTLCache.set c0 (cache_key video_id) url t1).get
        (cache_key video_id) t2 = some url := by
      rw [TTLCache.get_set_self, if_pos hwin]
    refine ⟨?_, by rw [hstep1]; exact hget, ?_⟩
    · rw [hstep1]
      simp [track_details, hget, assembleTrack_calls]
    · intro m thumb hm ht
      rw [hstep1]
      simp [track_details, hget, assembleTrack, hm, ht]
  · intro hexp
    have hget : (TTLCache.set c0 (cache_key video_id) url t1).get
        (cache_key video_id) t2 = none := by
      rw [TTLCache.get_set_self, if_neg (by omega)]
    rw [hstep1]
    by_cases hd2 : STREAM_TIMEOUT < listing2.duration
    · simp [track_details, hget, hd2]
    · cases hex2 : extract_audio_url listing2.streams with
      | error msg => simp [track_details, hget, hd2, hex2]
      | ok u2 => simp [track_details, hget, hd2, hex2, assembleTrack_calls]

/-- C2 witness: with a 300-second TTL, a first call at time 0 stores the
URL; a second call at time 299 does no upstream work; a call at time 300
performs upstream work again. -/
theorem claim_C2_cache_ttl_witness :
    (track_details "AAAAAAAAAAA" audio_cache_init 0 ⟨1, [exStream]⟩
        (.ok ⟨"MT", "MA", ["th"]⟩)).cache
      = TTLCache.set audio_cache_init (cache_key "AAAAAAAAAAA") "URL1" 0
    ∧ (track_details "AAAAAAAAAAA"
        (track_details "AAAAAAAAAAA" audio_cache_init 0 ⟨1, [exStream]⟩
          (.ok ⟨"MT", "MA", ["th"]⟩)).cache 299 ⟨1, [exStream]⟩
        (.ok ⟨"MT", "MA", ["th"]⟩)).upstreamCalls = 0
    ∧ (track_details "AAAAAAAAAAA"
        (track_details "AAAAAAAAAAA" audio_cache_init 0 ⟨1, [exStream]⟩
          (.ok ⟨"MT", "MA", ["th"]⟩)).cache 300 ⟨1, [exStream]⟩
        (.ok ⟨"MT", "MA", ["th"]⟩)).upstreamCalls = 1 :=
  ⟨(claim_C2_cache_ttl "AAAAAAAAAAA" "URL1" audio_cache_init 0 299 ⟨1, [exStream]⟩
      ⟨1, [exStream]⟩ (.ok ⟨"MT", "MA", ["th"]⟩) (.ok ⟨"MT", "MA", ["th"]⟩)
      (by rfl) (by decide) (by rfl)).1,
   ((claim_C2_cache_ttl "AAAAAAAAAAA" "URL1" audio_cache_init 0 299 ⟨1, [exStream]⟩
      ⟨1, [exStream]⟩ (.ok ⟨"MT", "MA", ["th"]⟩) (.ok ⟨"MT", "MA", ["th"]⟩)
      (by rfl) (by decide) (by rfl)).2.1 (by decide)).1,
   (claim_C2_cache_ttl "AAAAAAAAAAA" "URL1" audio_cache_init 0 300 ⟨1, [exStream]⟩
      ⟨1, [exStream]⟩ (.ok ⟨"MT", "MA", ["th"]⟩) (.ok ⟨"MT", "MA", ["th"]⟩)
      (by rfl) (by decide) (by rfl)).2.2.1 (by decide)⟩

/-- C6: a cache-miss stream resolution filters to audio-only streams of the
mp4 container and returns the URL of one with the highest audio bitrate
among them; if no audio-only stream exists the extraction fails, and a
track-details request in that case yields 503 Audio extraction failed. -/
theorem claim_C6_highest_bitrate (streams : List AudioStream) (video_id : String)
    (cache : TTLCache) (now dur : Nat) (meta : Except Unit Metadata) :
    (∀ url, extract_audio_url streams = .ok url →
        ∃ s ∈ streams, onlyAudioMp4 s = true ∧ s.abr.isSome = true ∧ s.url = url
          ∧ ∀ t ∈ streams, onlyAudioMp4 t = true → t.abr.isSome = true →
              abrVal t ≤ abrVal s)
    ∧ ((∀ s ∈ streams, ¬(s.includesAudio = true ∧ s.includesVideo = false)) →
        extract_audio_url streams = .error "No audio stream")
    ∧ (cache.get (cache_key video_id) now = none → ¬ STREAM_TIMEOUT < dur →
        (∀ s ∈ streams, ¬(s.includesAudio = true ∧ s.includesVideo = false)) →
        (track_details video_id cache now ⟨dur, streams⟩ meta).outcome
          = .httpError 503 "Audio extraction failed") := by
  have hb : (∀ s ∈ streams, ¬(s.includesAudio = true ∧ s.includesVideo = false)) →
      extract_audio_url streams = .error "No audio stream" := by
    intro hno
    have hfil : streams.filter onlyAudioMp4 = [] := by
      rw [List.filter_eq_nil_iff]
      intro s hs hc
      unfold onlyAudioMp4 at hc
      simp only [Bool.and_eq_true, Bool.not_eq_true', beq_iff_eq] at hc
      exact hno s hs ⟨hc.1.1, hc.1.2⟩
    unfold extract_audio_url
    rw [hfil]
    rfl
  refine ⟨?_, hb, ?_⟩
  · intro url hok
    unfold extract_audio_url at hok
    cases hl : (order_by_abr (streams.filter onlyAudioMp4)).getLast? with
    | none => rw [hl] at hok; cases hok
    | some s =>
      rw [hl] at hok
      have hurl : s.url = url := Except.ok.inj hok
      have hmem : s ∈ order_by_abr (streams.filter onlyAudioMp4) :=
        mem_of_getLast?_eq _ s hl
      rcases (mem_order_by_abr _ s).mp hmem with ⟨hsf, hsabr⟩
      refine ⟨s, (List.mem_filter.mp hsf).1, (List.mem_filter.mp hsf).2, hsabr, hurl, ?_⟩
      intro t htmem htp htabr
      have hto : t ∈ order_by_abr (streams.filter onlyAudioMp4) :=
        (mem_order_by_abr _ t).mpr ⟨List.mem_filter.mpr ⟨htmem, htp⟩, htabr⟩
      exact getLast?_abr_max _ s (order_by_abr_pairwise _) hl t hto
  · intro hmiss hdur hno
    have hex := hb hno
    simp [track_details, hmiss, hdur, hex]

/-- C6 witness: a stream list whose only mp4 entry carries video is
rejected, and a concrete track-details request on it yields 503. -/
theorem claim_C6_highest_bitrate_witness :
    (track_details "AAAAAAAAAAA" audio_cache_init 0
        ⟨1, [⟨true, true, "mp4", some 128, "hasvideo"⟩]⟩ (.error ())).outcome
      = .httpError 503 "Audio extraction failed" :=
  (claim_C6_highest_bitrate [⟨true, true, "mp4", some 128, "hasvideo"⟩] "AAAAAAAAAAA"
      audio_cache_init 0 1 (.error ())).2.2 (by rfl) (by decide) (by decide)

/-- C1: normalization emits exactly one result per distinct non-empty
identifier, in first-occurrence merge order (songs-query results before
videos-query results under mode "all", the single result list as-is
otherwise); records lacking an identifier contribute nothing; and each
result's fields are those computed from the FIRST record bearing its
identifier. -/
theorem claim_C1_dedup_first (raw songs videos : List RawRecord) (upstream : Upstream) :
    (normalizeResults raw).map SearchResult.videoId
      = firstDedupFrom [] (raw.filterMap getVid)
    ∧ (firstDedupFrom [] (raw.filterMap getVid)).Nodup
    ∧ (∀ v, v ∈ firstDedupFrom [] (raw.filterMap getVid) ↔ v ∈ raw.filterMap getVid)
    ∧ (∀ res ∈ normalizeResults raw, ∃ item,
        raw.find? (fun r => getVid r == some res.videoId) = some item
        ∧ getVid item = some res.videoId ∧ res = mkResult item res.videoId)
    ∧ (upstream (some "songs") = .ok songs → upstream none = .ok videos →
        songs ++ videos ≠ [] →
        search_tracks "all" upstream = .ok (normalizeResults (songs ++ videos)))
    ∧ (∀ mode raws, mode ≠ "all" → upstream (some mode) = .ok raws → raws ≠ [] →
        search_tracks mode upstream = .ok (normalizeResults raws)) := by
  refine ⟨normalizeGo_map raw [], nodup_firstDedupFrom _ [], ?_, ?_, ?_, ?_⟩
  · intro v
    rw [mem_firstDedupFrom]
    simp
  · intro res hres
    exact (normalizeGo_first raw [] res hres).2
  · exact search_tracks_all_ok upstream songs videos
  · intro mode raws hm hs hne
    exact search_tracks_single_ok mode upstream raws hm hs hne

/-- C1 witness: end-to-end example 1 — a songs record and a videos record
sharing one identifier merge to a single result whose fields come from the
first (songs) record. -/
theorem claim_C1_dedup_first_witness :
    search_tracks "all" exUpstream
      = .ok [{ title := "T1", artist := "X",
               thumbnail := "https://img.youtube.com/vi/AAAAAAAAAAA/maxresdefault.jpg",
               videoId := "AAAAAAAAAAA", type := "song" }] := by
  have h := (claim_C1_dedup_first [] [exSongRec] [exVideoRec] exUpstream).2.2.2.2.1
      (by rfl) (by rfl) (by decide)
  rw [h]
  decide

/-- C7: for a surviving record, kind is the declared (non-empty) result
type, defaulting to "video" when absent; title is the declared title,
defaulting to "No title" when absent; artist is the comma-joined name list
from the "artists" field, falling back to the "channel" field when
"artists" is absent and to the literal "Unknown" when neither yields any
name; thumbnail is the thumbnail resolver's output for (trackId, kind). -/
theorem claim_C7_derived_fields (item : RawRecord) (vid : String) :
    (∀ k, item.resultType = some k → k ≠ "" → (mkResult item vid).type = k)
    ∧ (item.resultType = none → (mkResult item vid).type = "video")
    ∧ (∀ t, item.title = some t → (mkResult item vid).title = t)
    ∧ (item.title = none → (mkResult item vid).title = "No title")
    ∧ (mkResult item vid).thumbnail = thumbnail_url vid (mkResult item vid).type
    ∧ (∀ l, item.artists = some l → artistNames l ≠ [] →
        (mkResult item vid).artist = String.intercalate ", " (artistNames l))
    ∧ (item.artists = none → ∀ m, item.channel = some m → artistNames m ≠ [] →
        (mkResult item vid).artist = String.intercalate ", " (artistNames m))
    ∧ (artistNames ((truthyList item.artists).getD []) = [] →
        artistNames ((truthyList item.channel).getD []) = [] →
        (mkResult item vid).artist = "Unknown") := by
  refine ⟨?_, ?_, ?_, ?_, rfl, ?_, ?_, ?_⟩
  · intro k hk hne
    simp [mkResult, truthyStr, hk, hne]
  · intro hk
    simp [mkResult, truthyStr, hk]
  · intro t ht
    simp [mkResult, ht]
  · intro ht
    simp [mkResult, ht]
  · intro l hart hnames
    cases l with
    | nil => exact absurd rfl hnames
    | cons a l' =>
      have hr : recordArtistList item = a :: l' := by
        simp [recordArtistList, hart, truthyList, Option.orElse]
      simp [mkResult, hr, List.isEmpty_iff, hnames]
  · intro hA m hm hnames
    cases m with
    | nil => exact absurd rfl hnames
    | cons a m' =>
      have hr : recordArtistList item = a :: m' := by
        simp [recordArtistList, hA, hm, truthyList, Option.orElse]
      simp [mkResult, hr, List.isEmpty_iff, hnames]
  · intro hA hC
    have hr : artistNames (recordArtistList item) = [] := by
      unfold recordArtistList
      cases hta : truthyList item.artists with
      | some l =>
        rw [hta] at hA
        simpa [Option.orElse] using hA
      | none =>
        cases htc : truthyList item.channel with
        | some l2 =>
          rw [htc] at hC
          simpa [Option.orElse] using hC
        | none =>
          simp [Option.orElse, htc, artistNames]
    simp [mkResult, hr]

/-- C7 witness: end-to-end example 3's surviving record — a record with an
identifier but neither artists nor channel gets artist "Unknown", kind
"video", and its declared title. -/
theorem claim_C7_derived_fields_witness :
    (mkResult exRecB "BBBBBBBBBBB").artist = "Unknown"
    ∧ (mkResult exRecB "BBBBBBBBBBB").type = "video"
    ∧ (mkResult exRecB "BBBBBBBBBBB").title = "T3" :=
  ⟨(claim_C7_derived_fields exRecB "BBBBBBBBBBB").2.2.2.2.2.2.2 (by rfl) (by rfl),
   (claim_C7_derived_fields exRecB "BBBBBBBBBBB").2.1 (by rfl),
   (claim_C7_derived_fields exRecB "BBBBBBBBBBB").2.2.1 "T3" (by rfl)⟩

/-- C10: in mode "all" the limit caps each upstream query separately but
the merged deduplicated response is not re-capped: two length-L query
results with pairwise-distinct non-empty identifiers yield 2*L results,
exceeding the per-query cap L. -/
theorem claim_C10_no_recap (L : Nat) (q : String) (songs videos : List RawRecord)
    (upstream : Upstream)
    (hs : upstream (some "songs") = .ok songs) (hv : upstream none = .ok videos)
    (hls : songs.length = L) (hlv : videos.length = L) (hL : 1 ≤ L)
    (hall : ∀ r ∈ songs ++ videos, (getVid r).isSome = true)
    (hnd : ((songs ++ videos).filterMap getVid).Nodup) :
    issuedQueries q L "all" = [⟨q, some "songs", L⟩, ⟨q, none, L⟩]
    ∧ search_tracks "all" upstream = .ok (normalizeResults (songs ++ videos))
    ∧ (normalizeResults (songs ++ videos)).length = 2 * L
    ∧ L < 2 * L := by
  have hfd : firstDedupFrom [] ((songs ++ videos).filterMap getVid)
      = (songs ++ videos).filterMap getVid :=
    firstDedupFrom_of_nodup _ [] hnd (by intro x hx; simp)
  have hlen : (normalizeResults (songs ++ videos)).length = 2 * L := by
    have h2 := List.length_map (normalizeResults (songs ++ videos)) SearchResult.videoId
    rw [normalizeResults, normalizeGo_map, hfd, filterMap_getVid_length _ hall,
      List.length_append, hls, hlv] at h2
    rw [normalizeResults]
    omega
  have hne : songs ++ videos ≠ [] := by
    intro hc
    have hlc := congrArg List.length hc
    rw [List.length_append, hls, hlv] at hlc
    simp at hlc
    omega
  exact ⟨by simp [issuedQueries],
    search_tracks_all_ok upstream songs videos hs hv hne, hlen, by omega⟩

/-- C10 witness: limit 1 with two disjoint single-record query results
yields 2 results, exceeding the per-query cap of 1. -/
theorem claim_C10_no_recap_witness :
    search_tracks "all" exUpstreamDisjoint
      = .ok (normalizeResults ([exSongRec] ++ [exRecB]))
    ∧ (normalizeResults ([exSongRec] ++ [exRecB])).length = 2 * 1
    ∧ 1 < 2 * 1 :=
  ⟨(claim_C10_no_recap 1 "test" [exSongRec] [exRecB] exUpstreamDisjoint (by rfl) (by rfl)
      (by rfl) (by rfl) (by decide) (by decide) (by decide)).2.1,
   (claim_C10_no_recap 1 "test" [exSongRec] [exRecB] exUpstreamDisjoint (by rfl) (by rfl)
      (by rfl) (by rfl) (by decide) (by decide) (by decide)).2.2.1,
   (claim_C10_no_recap 1 "test" [exSongRec] [exRecB] exUpstreamDisjoint (by rfl) (by rfl)
      (by rfl) (by rfl) (by decide) (by decide) (by decide)).2.2.2⟩

/-- C8 witness: concrete tier outputs for kind "song" and kind "video". -/
theorem claim_C8_thumbnail_first_tier_witness :
    thumbnail_url "AAAAAAAAAAA" "song"
      = thumbURL "AAAAAAAAAAA" (if "song" = "song" then "maxresdefault" else "hqdefault")
    ∧ thumbnail_url "AAAAAAAAAAA" "video"
      = thumbURL "AAAAAAAAAAA" (if "video" = "song" then "maxresdefault" else "hqdefault") :=
  ⟨(claim_C8_thumbnail_first_tier "AAAAAAAAAAA" "song").2.1,
   (claim_C8_thumbnail_first_tier "AAAAAAAAAAA" "video").2.1⟩
